import Mathlib

/-!
Verification development for the burst-builder load-testing script
(src/burst-builder.js).  The script is shallowly embedded: every Playwright
query the script can make against a browser page is recorded as a field of an
explicit page-state structure, and each orchestration function of the script
becomes a pure Lean function over those structures.  Time-indexed page state
(for the polling loops) is a function from poll ticks to page state.
-/

set_option maxRecDepth 10000

namespace BurstBuilder

/-! ## Configuration (lines 70-92 of burst-builder.js)

`TABS = Math.max(1, Math.min(Number(args.tabs) || 5, 55))` (line 82).
The input is modelled as `Option Int`: `none` stands for an absent or
non-numeric `--tabs` argument (JS `Number` gives `NaN`, and `NaN || 5` is `5`);
`some 0` gives `0 || 5 = 5` because `0` is falsy in JS. -/
def clampTabs (tabsArg : Option Int) : Int :=
  let n : Int :=
    match tabsArg with
    | none => 5
    | some v => if v = 0 then 5 else v
  max 1 (min n 55)

/-- Provisioning batch size, line 451: `Math.min(10, TABS)`. -/
def BATCH_SIZE (tabs : Nat) : Nat := min 10 tabs

/-- Prompt-submission batch size, line 632: `Math.min(15, TABS)`. -/
def PROMPT_BATCH_SIZE (tabs : Nat) : Nat := min 15 tabs

/-! ## Batch partitioning (lines 455-496 and 634-654)

Both loops run `for (batchStart = 0; batchStart < n; batchStart += B)` and
take the slice `[batchStart, min(batchStart + B, n))` of the index range, so
each pass over the tabs is exactly a chunking of the list of tab indices into
consecutive pieces of size `B`, the last piece possibly smaller. -/
def chunkAux (b : Nat) : Nat → List α → List (List α)
  | _, [] => []
  | 0, x :: xs => [x :: xs]
  | fuel + 1, x :: xs =>
    if b = 0 then [x :: xs]
    else (x :: xs).take b :: chunkAux b fuel ((x :: xs).drop b)

/-- Chunk a list into consecutive pieces of size `b` (the last piece possibly
smaller); the fuel argument of `chunkAux` makes the recursion structural. -/
def chunkList (b : Nat) (l : List α) : List (List α) := chunkAux b l.length l

theorem chunkAux_flatten (b : Nat) :
    ∀ (fuel : Nat) (l : List α), l.length ≤ fuel → (chunkAux b fuel l).flatten = l := by
  intro fuel
  induction fuel with
  | zero =>
    intro l hl
    cases l with
    | nil => rfl
    | cons x xs => simp at hl
  | succ n ih =>
    intro l hl
    cases l with
    | nil => rfl
    | cons x xs =>
      simp only [List.length_cons] at hl
      by_cases hb : b = 0
      · subst hb
        rw [chunkAux, if_pos rfl]
        simp
      · have hlen : ((x :: xs).drop b).length ≤ n := by
          simp only [List.length_drop, List.length_cons]
          omega
        rw [chunkAux, if_neg hb, List.flatten_cons, ih _ hlen, List.take_append_drop]

theorem chunkList_flatten (b : Nat) (l : List α) : (chunkList b l).flatten = l :=
  chunkAux_flatten b l.length l (le_refl _)

theorem chunkAux_length_le (b : Nat) (hb : 1 ≤ b) :
    ∀ (fuel : Nat) (l : List α), l.length ≤ fuel →
      ∀ c ∈ chunkAux b fuel l, c.length ≤ b := by
  intro fuel
  induction fuel with
  | zero =>
    intro l hl c hc
    cases l with
    | nil => simp [chunkAux] at hc
    | cons x xs => simp at hl
  | succ n ih =>
    intro l hl c hc
    cases l with
    | nil => simp [chunkAux] at hc
    | cons x xs =>
      simp only [List.length_cons] at hl
      have hb0 : b ≠ 0 := by omega
      rw [chunkAux, if_neg hb0] at hc
      rcases List.mem_cons.mp hc with h | h
      · subst h
        simp only [List.length_take]
        exact min_le_left _ _
      · have hlen : ((x :: xs).drop b).length ≤ n := by
          simp only [List.length_drop, List.length_cons]
          omega
        exact ih _ hlen c h

theorem chunkList_length_le (b : Nat) (hb : 1 ≤ b) (l : List α) :
    ∀ c ∈ chunkList b l, c.length ≤ b :=
  chunkAux_length_le b hb l.length l (le_refl _)

theorem all_flatten (p : α → Bool) (L : List (List α)) :
    L.flatten.all p = L.all (fun c => c.all p) := by
  induction L with
  | nil => rfl
  | cons c L ih => simp [List.flatten_cons, List.all_append, ih]

theorem count_flatten_sum (a : Nat) (L : List (List Nat)) :
    L.flatten.count a = ((L.map (fun c => c.count a)).sum) := by
  induction L with
  | nil => rfl
  | cons c L ih => simp [List.flatten_cons, List.count_append, ih]

theorem chunkList_count_range (t b i : Nat) (hi : i < t) :
    ((chunkList b (List.range t)).map (fun c => c.count i)).sum = 1 := by
  rw [← count_flatten_sum, chunkList_flatten]
  exact List.count_eq_one_of_mem (List.nodup_range t) (List.mem_range.mpr hi)

/-! ## Readiness detection (lines 95-102 and 499-529)

A page DOM is observed only through `document.querySelector` calls; the model
records the truth of each distinct query string the readiness code issues.
A loading page is a trace `Nat → Dom` giving the observed state at each poll
tick. -/
structure Dom where
  /-- Query `[data-testid="app-shell"], [data-qa="app-shell"]` has a match. -/
  appShellHook : Bool
  /-- Query `nav, [role="navigation"]` has a match. -/
  navigationElem : Bool
  /-- Query `#root, main, [data-testid], [data-qa]` has a match. -/
  appFrame : Bool
  /-- Query for `input`/`textarea` with placeholder containing Ask or Fusion. -/
  askOrFusionField : Bool
  /-- Query `nav, [role="navigation"], [data-testid="app-shell"]` has a match. -/
  navOrShell : Bool
  /-- Query `input, textarea` has a match. -/
  anyInputField : Bool
deriving DecidableEq, Repr

/-- Heuristics for project is ready, lines 95-102. -/
def READY_CHECKS : List (Dom → Bool) :=
  [fun d => d.appShellHook, fun d => d.navigationElem, fun d => d.appFrame]

/-- Disjunction evaluated by `checks.some(...)` in the injected poll, line 502. -/
def readyPred (d : Dom) : Bool := READY_CHECKS.any (fun c => c d)

/-- Predicate of the secondary Builder-interface wait, lines 510-524: prompt
input, or navigation shell, or any input field. -/
def interfacePred (d : Dom) : Bool :=
  d.askOrFusionField || d.navOrShell || d.anyInputField

/-- Poll budget of the primary readiness wait: 120 s at 500 ms polling. -/
def PRIMARY_POLLS : Nat := 240

/-- Poll budget of the secondary interface wait: 30 s at 1 s polling. -/
def SECONDARY_POLLS : Nat := 30

/-- Model of `page.waitForFunction`: starting at tick `k` with `fuel` polls
remaining, return the first tick at which the predicate holds, or `none` when
the budget is exhausted (a Playwright timeout). -/
def pollFirst (p : Nat → Bool) : Nat → Nat → Option Nat
  | 0, _ => none
  | fuel + 1, k => if p k then some k else pollFirst p fuel (k + 1)

theorem pollFirst_some (p : Nat → Bool) :
    ∀ (fuel k j : Nat), pollFirst p fuel k = some j →
      p j = true ∧ k ≤ j ∧ ∀ i, k ≤ i → i < j → p i = false := by
  intro fuel
  induction fuel with
  | zero => intro k j h; simp [pollFirst] at h
  | succ n ih =>
    intro k j h
    rw [pollFirst] at h
    by_cases hp : p k = true
    · rw [if_pos hp] at h
      cases h
      exact ⟨hp, le_refl _, fun i h1 h2 => absurd (lt_of_le_of_lt h1 h2) (lt_irrefl _)⟩
    · rw [if_neg (by simpa using hp)] at h
      obtain ⟨hj, hk, hmin⟩ := ih (k + 1) j h
      refine ⟨hj, le_trans (Nat.le_succ k) hk, fun i h1 h2 => ?_⟩
      rcases Nat.eq_or_lt_of_le h1 with h1 | h1
      · subst h1; simpa using hp
      · exact hmin i h1 h2

theorem pollFirst_none (p : Nat → Bool) :
    ∀ (fuel k : Nat), pollFirst p fuel k = none →
      ∀ i, k ≤ i → i < k + fuel → p i = false := by
  intro fuel
  induction fuel with
  | zero => intro k _ i h1 h2; omega
  | succ n ih =>
    intro k h i h1 h2
    rw [pollFirst] at h
    by_cases hp : p k = true
    · rw [if_pos hp] at h; cases h
    · rw [if_neg (by simpa using hp)] at h
      rcases Nat.eq_or_lt_of_le h1 with h1 | h1
      · subst h1; simpa using hp
      · exact ih (k + 1) h i h1 (by omega)

/-- Primary readiness wait, lines 502-504: unguarded `waitForFunction` over the
disjunction of `READY_CHECKS`, 120 s timeout at 500 ms polling. -/
def primaryPoll (trace : Nat → Dom) : Option Nat :=
  pollFirst (fun k => readyPred (trace k)) PRIMARY_POLLS 0

/-- Secondary interface wait, lines 510-524: 30 s timeout at 1 s polling. -/
def interfacePoll (trace2 : Nat → Dom) : Option Nat :=
  pollFirst (fun k => interfacePred (trace2 k)) SECONDARY_POLLS 0

/-- Error message of a primary-poll timeout (the rejection of the unguarded
`waitForFunction` promise). -/
def readinessTimeoutMsg : String := "page.waitForFunction: Timeout 120000ms exceeded"

/-- Per-tab readiness phase, lines 499-529.  The primary poll is NOT wrapped in
try/catch, so its timeout surfaces as an error; the secondary wait IS wrapped
(lines 508-528), so its outcome is only logged and the phase succeeds either
way.  `trace2` is the page state during the secondary waiting window.  The
returned Bool records whether the secondary wait succeeded (false means the
timeout warning was logged). -/
def readinessPhase (trace trace2 : Nat → Dom) : Except String Bool :=
  match primaryPoll trace with
  | some _ => Except.ok (interfacePoll trace2).isSome
  | none => Except.error readinessTimeoutMsg

/-! ## Authentication (lines 116-278)

Pages are again observed only through selector queries; the model records, for
each of the candidate-selector loops of `checkAuthentication`, whether some
selector in the loop has a visible match. -/
structure AuthPage where
  /-- An exception is raised inside the body of `checkAuthentication`
  (for example the `waitForLoadState` call times out), reaching the catch. -/
  checkThrows : Bool
  /-- Some selector of `loginSelectors` (lines 128-137) has a visible match. -/
  loginButtonVisible : Bool
  /-- Some selector of `authSelectors` (lines 153-172) has a visible match. -/
  authIndicatorVisible : Bool
  /-- The URL contains builder.io and contains neither login nor signin. -/
  onBuilderNonLoginUrl : Bool
deriving DecidableEq, Repr

structure AuthStatus where
  authenticated : Bool
  reason : String
deriving DecidableEq, Repr

/-- Model of `checkAuthentication` (lines 117-212): login buttons are checked
first, then authenticated indicators, then the URL heuristic, then the
headless assumption; exceptions anywhere in the body reach the catch, which is
permissive in headless mode. -/
def checkAuthentication (headless : Bool) (pg : AuthPage) : AuthStatus :=
  if pg.checkThrows then
    if headless then ⟨true, "headless_error_assumption"⟩ else ⟨false, "error"⟩
  else if pg.loginButtonVisible then ⟨false, "login_required"⟩
  else if pg.authIndicatorVisible then ⟨true, "authenticated"⟩
  else if pg.onBuilderNonLoginUrl then ⟨true, "on_builder_page"⟩
  else if headless then ⟨true, "headless_assumption"⟩
  else ⟨false, "unknown"⟩

structure AuthResult where
  success : Bool
  authenticated : Bool
  reason : String
deriving DecidableEq, Repr

/-- Poll budget of the UI-mode login wait: 5 minutes at 5 s polling. -/
def AUTH_POLLS : Nat := 60

/-- Model of `handleAuthentication` (lines 215-278).  `trace 0` is the page
state at the initial check; `trace (k+1)` is the state at the k-th poll of the
UI-mode login wait. -/
def handleAuthentication (headless : Bool) (trace : Nat → AuthPage) : AuthResult :=
  let st := checkAuthentication headless (trace 0)
  if st.authenticated then ⟨true, true, ""⟩
  else if headless then
    if st.reason = "login_required" then ⟨false, false, "headless_login_required"⟩
    else ⟨true, true, ""⟩
  else
    match pollFirst (fun k => (checkAuthentication headless (trace (k + 1))).authenticated)
        AUTH_POLLS 0 with
    | some _ => ⟨true, true, ""⟩
    | none => ⟨false, false, "timeout"⟩

/-! ## Prompt control resolution and injection (lines 104-112 and 532-627)

An element returned by a locator query is modelled by its visibility and its
`placeholder` attribute (the attribute the decoy disambiguation would inspect;
`triggerOnPage` itself never reads it). -/
structure Elem where
  visible : Bool
  placeholder : String
deriving DecidableEq, Repr

structure SendBtn where
  /-- Result of `sendButton.isVisible()`, false also when no match exists. -/
  visible : Bool
  /-- Result of `getAttribute("disabled")`: `none` models JS null. -/
  disabledAttr : Option String
deriving DecidableEq, Repr

/-- JS truthiness of a `getAttribute` result: null and the empty string are
falsy, every other string is truthy. -/
def jsTruthyAttr : Option String → Bool
  | none => false
  | some s => decide (s ≠ "")

/-- State of one tab as seen by `triggerOnPage`: the result of each locator
query it (or the declared candidate list) can issue.  A `none` field means the
query has no match. -/
structure Page where
  /-- First element matching ARIA role with name matching `/prompt/i`
  (candidate 1 of `PROMPT_CANDIDATES`, line 107). -/
  roleMatch : Option Elem
  /-- First element with text matching `/prompt/i`
  (candidate 2 of `PROMPT_CANDIDATES`, line 109). -/
  textMatch : Option Elem
  /-- First match of `[data-testid="prompt"], [data-qa="prompt"]`
  (candidate 3 of `PROMPT_CANDIDATES`, line 111). -/
  cssMatch : Option Elem
  /-- First match of the hardcoded main-prompt locator
  `div[contenteditable="true"][role="textbox"].tiptap.ProseMirror` (line 548). -/
  proseMirror : Option Elem
  /-- First match of `button[type="button"][title="Send message"]` (line 564). -/
  sendButton : Option SendBtn
  /-- Match of the user-supplied `--promptSelector` override (line 614). -/
  overrideMatch : Option Elem
  /-- An exception is raised while focusing or typing into the prompt element
  (caught by the catch at line 607). -/
  focusTypeThrows : Bool
  /-- An exception is raised while querying or clicking the override element
  (caught by the catch at line 620). -/
  overrideClickThrows : Bool
deriving DecidableEq, Repr

/-- Candidate kinds of the declared `PROMPT_CANDIDATES` list (lines 105-112). -/
inductive CandidateKind
  | roleCand
  | textCand
  | cssCand
deriving DecidableEq, Repr

/-- The declared candidate list, in its declared order: role, text, CSS. -/
def PROMPT_CANDIDATES : List CandidateKind :=
  [CandidateKind.roleCand, CandidateKind.textCand, CandidateKind.cssCand]

/-- Result of the locator query a candidate describes. -/
def candidateLookup (pg : Page) : CandidateKind → Option Elem
  | CandidateKind.roleCand => pg.roleMatch
  | CandidateKind.textCand => pg.textMatch
  | CandidateKind.cssCand => pg.cssMatch

/-- Prefix test on character lists. -/
def leadsWith : List Char → List Char → Bool
  | [], _ => true
  | _ :: _, [] => false
  | a :: as, b :: bs => a == b && leadsWith as bs

/-- Substring test on character lists. -/
def hasSubList (sub : List Char) : List Char → Bool
  | [] => sub.isEmpty
  | c :: cs => leadsWith sub (c :: cs) || hasSubList sub cs

/-- Case-insensitive substring test used to state the decoy pattern. -/
def strContains (s sub : String) : Bool :=
  hasSubList (sub.toList.map Char.toLower) (s.toList.map Char.toLower)

/-- Decoy test of the specification: the inspected `placeholder` attribute
mentions branch. -/
def isDecoy (e : Elem) : Bool := strContains e.placeholder "branch"

/-- Follows the words of the specification (sections 4.2 and 8.1-8.2), for
comparison with the code: walk the candidate list in order, return the first
candidate element that is present, visible and passes the decoy filter. -/
def specResolvePrompt (pg : Page) : Option Elem :=
  (PROMPT_CANDIDATES.filterMap (fun c =>
    match candidateLookup pg c with
    | some e => if e.visible && !isDecoy e then some e else none
    | none => none)).head?

/-- Result of `locator.first().isVisible()`: false when there is no match. -/
def locatorVisible : Option Elem → Bool
  | none => false
  | some e => e.visible

/-- Visibility of the send button (line 566). -/
def sendVisibleB (pg : Page) : Bool :=
  match pg.sendButton with
  | none => false
  | some b => b.visible

/-- Disabled test of the send button (lines 568-569): the `disabled` attribute
is read and tested for JS truthiness. -/
def sendDisabledB (pg : Page) : Bool :=
  match pg.sendButton with
  | none => false
  | some b => jsTruthyAttr b.disabledAttr

/-- Whether the override fallback (lines 612-623) finds and clicks a visible
element without an exception. -/
def overrideUsable (hasOverride : Bool) (pg : Page) : Bool :=
  hasOverride &&
    (match pg.overrideMatch with
     | none => false
     | some e => e.visible && !pg.overrideClickThrows)

/-- Submission action performed by `triggerOnPage`. -/
inductive SubmitAction
  | clickSend
  | pressEnter
  | clickOverride
  | noSubmit
deriving DecidableEq, Repr

/-- Outcome of one `triggerOnPage` call: the returned boolean, the submission
action performed, and the element that was acted upon. -/
structure TriggerResult where
  ok : Bool
  action : SubmitAction
  target : Option Elem
deriving DecidableEq, Repr

/-- Override fallback, lines 612-623: if an override selector was supplied and
it resolves to a visible element, click it and succeed; any failure falls
through to the final `return false` (line 626). -/
def overrideFallback (hasOverride : Bool) (pg : Page) : TriggerResult :=
  if overrideUsable hasOverride pg then
    ⟨true, SubmitAction.clickOverride, pg.overrideMatch⟩
  else ⟨false, SubmitAction.noSubmit, none⟩

/-- Model of `triggerOnPage` (lines 532-627).  The main path queries ONLY the
hardcoded ProseMirror locator; when it is visible the element is focused and
typed into (an exception there is caught and drops to the override fallback),
then the send button is clicked when visible and enabled, and Enter is pressed
otherwise.  The declared `PROMPT_CANDIDATES` are never consulted, and no
attribute of the resolved element is inspected. -/
def triggerOnPage (hasOverride : Bool) (pg : Page) : TriggerResult :=
  if locatorVisible pg.proseMirror then
    if pg.focusTypeThrows then overrideFallback hasOverride pg
    else if sendVisibleB pg then
      if sendDisabledB pg then ⟨true, SubmitAction.pressEnter, pg.proseMirror⟩
      else ⟨true, SubmitAction.clickSend, pg.proseMirror⟩
    else ⟨true, SubmitAction.pressEnter, pg.proseMirror⟩
  else overrideFallback hasOverride pg

/-! ## Whole-run model (lines 392-673)

The main async function: dashboard navigation, authentication, batched tab
provisioning (a navigation failure throws, reaches the top-level catch at line
670 and exits with code 1), the readiness waits (the unguarded primary poll
rejects the `Promise.all` on timeout, likewise fatal), then batched prompt
injection and the final aggregate. -/
structure TabEnv where
  /-- The `goto` of line 469 succeeds for this tab. -/
  navOk : Bool
  /-- Page state for the per-tab `checkAuthentication` of line 473 (its result
  is only logged as a warning and does not change control flow). -/
  authPage : AuthPage
  /-- Page state per tick during the primary readiness poll. -/
  trace : Nat → Dom
  /-- Page state per tick during the secondary interface wait. -/
  trace2 : Nat → Dom
  /-- Locator-query results during the prompt phase. -/
  page : Page

structure Env where
  /-- The `--tabs` argument, `none` when absent or non-numeric. -/
  tabsArg : Option Int
  headless : Bool
  /-- A non-empty `--promptSelector` override was supplied. -/
  hasOverride : Bool
  /-- The dashboard `goto` of line 421 succeeds. -/
  dashNavOk : Bool
  /-- Dashboard page state per authentication poll tick. -/
  dashTrace : Nat → AuthPage
  tab : Nat → TabEnv

/-- Effective tab count of a run. -/
def envTabs (env : Env) : Nat := (clampTabs env.tabsArg).toNat

inductive RunOutcome
  /-- A `process.exit(code)` via the authentication failure branches (lines
  439, 443) or the top-level catch (line 672). -/
  | fatal (code : Nat)
  /-- Normal completion (process exit code 0): the per-tab results, the
  success count and the printed rounded percentage (lines 656-658). -/
  | completed (results : List Bool) (okCount : Nat) (pct : Nat)
deriving DecidableEq, Repr

/-- Exit code of a run outcome. -/
def exitCode : RunOutcome → Nat
  | RunOutcome.fatal c => c
  | RunOutcome.completed _ _ _ => 0

/-- JS `Math.round(ok / tabs * 100)` on exact rationals: round half up. -/
def roundPct (ok tabs : Nat) : Nat := (200 * ok + tabs) / (2 * tabs)

/-- Provisioning succeeds only when every tab of every batch navigates: the
first failing `goto` throws out of the batching loop (lines 455-496). -/
def navAllOk (env : Env) : Bool :=
  (chunkList (BATCH_SIZE (envTabs env)) (List.range (envTabs env))).all
    (fun bt => bt.all (fun i => (env.tab i).navOk))

/-- The `Promise.all` of the readiness phase (line 499) resolves only when no
primary poll times out. -/
def readyAllOk (env : Env) : Bool :=
  (List.range (envTabs env)).all (fun i => (primaryPoll (env.tab i).trace).isSome)

/-- Prompt phase, lines 629-654: the pages are processed in batches of
`PROMPT_BATCH_SIZE`, each batch fanned out with `Promise.all`, and the batch
results are concatenated into `results` in order. -/
def promptResults (hasOverride : Bool) (tabs : Nat) (page : Nat → Page) : List Bool :=
  ((chunkList (PROMPT_BATCH_SIZE tabs) ((List.range tabs).map page)).map
    (fun batch => batch.map (fun pg => (triggerOnPage hasOverride pg).ok))).flatten

/-- Model of the whole run (lines 392-673). -/
def run (env : Env) : RunOutcome :=
  if env.dashNavOk then
    if (handleAuthentication env.headless env.dashTrace).success then
      if navAllOk env then
        if readyAllOk env then
          let rs := promptResults env.hasOverride (envTabs env) (fun i => (env.tab i).page)
          RunOutcome.completed rs (rs.countP (fun b => b))
            (roundPct (rs.countP (fun b => b)) (envTabs env))
        else RunOutcome.fatal 1
      else RunOutcome.fatal 1
    else RunOutcome.fatal 1
  else RunOutcome.fatal 1

theorem navAllOk_eq (env : Env) :
    navAllOk env = (List.range (envTabs env)).all (fun i => (env.tab i).navOk) := by
  rw [navAllOk, ← all_flatten, chunkList_flatten]

theorem promptResults_eq (hasOverride : Bool) (tabs : Nat) (page : Nat → Page) :
    promptResults hasOverride tabs page
      = (List.range tabs).map (fun i => (triggerOnPage hasOverride (page i)).ok) := by
  rw [promptResults, ← List.map_flatten, chunkList_flatten, List.map_map]
  rfl

/-! ## Concrete fixtures used by the claim theorems -/

/-- Visible element with an empty placeholder attribute. -/
def promptElem : Elem := ⟨true, ""⟩

/-- Visible element whose placeholder mentions a branch name. -/
def decoyElem : Elem := ⟨true, "Enter branch name"⟩

/-- Page on which no locator query matches anything. -/
def emptyPage : Page := ⟨none, none, none, none, none, none, false, false⟩

/-- Page whose only match is a visible role-name candidate, the first entry of
the declared candidate list. -/
def c1Page : Page := { emptyPage with roleMatch := some promptElem }

/-- Page whose first match of the hardcoded prompt locator is a visible decoy
with placeholder mentioning branch. -/
def c2Page : Page := { emptyPage with proseMirror := some decoyElem }

/-- Page with a visible prompt input and a visible, enabled send button. -/
def c4Page : Page :=
  { emptyPage with proseMirror := some promptElem, sendButton := some ⟨true, none⟩ }

/-- Page with a visible prompt input and a visible but disabled send button. -/
def c4DisabledPage : Page :=
  { emptyPage with proseMirror := some promptElem, sendButton := some ⟨true, some "true"⟩ }

/-- DOM state on which every readiness query fails. -/
def deadDom : Dom := ⟨false, false, false, false, false, false⟩

/-- DOM state on which every readiness query succeeds. -/
def liveDom : Dom := ⟨true, true, true, true, true, true⟩

/-- Authenticated page state: no login button, a visible auth indicator. -/
def authedPage : AuthPage := ⟨false, false, true, true⟩

/-- Healthy tab: navigation succeeds, the page becomes ready at once, and the
prompt input with an enabled send button is found. -/
def tabGood : TabEnv :=
  ⟨true, authedPage, fun _ => liveDom, fun _ => liveDom, c4Page⟩

/-- Tab whose page never satisfies any readiness predicate. -/
def tabNeverReady : TabEnv := { tabGood with trace := fun _ => deadDom }

/-- Tab on which the prompt phase finds nothing. -/
def tabNoPrompt : TabEnv := { tabGood with page := emptyPage }

/-- Tab on which only the decoy element exists (it does not match the
hardcoded prompt locator, which requires a contenteditable ProseMirror div). -/
def tabDecoyOnly : TabEnv := { tabGood with page := { emptyPage with textMatch := some decoyElem } }

/-- Environment whose single tab never becomes ready; all other phases are
healthy. -/
def envNeverReady : Env :=
  ⟨some 1, false, false, true, fun _ => authedPage, fun _ => tabNeverReady⟩

/-- Three-tab end-to-end scenario: one resolvable prompt, one decoy-only tab,
one tab with no matching element at all. -/
def env3 : Env :=
  ⟨some 3, false, false, true, fun _ => authedPage,
    fun i => match i with
      | 0 => tabGood
      | 1 => tabDecoyOnly
      | _ => tabNoPrompt⟩

/-- Two-tab environment: the first tab fails to find a prompt, the second
succeeds. -/
def envMix : Env :=
  ⟨some 2, false, false, true, fun _ => authedPage,
    fun i => match i with
      | 0 => tabNoPrompt
      | _ => tabGood⟩

/-! ## Claim theorems -/

/-- C1: the claim says the prompt-control resolution iterates the declared
candidate list (role-match, text-match, CSS-match) in order and returns the
first present visible candidate.  The code never consults `PROMPT_CANDIDATES`:
on a page whose only match is a visible first candidate (the role match), the
spec-side resolver returns that element, while `triggerOnPage` reports not
found (returns false with no submission). -/
theorem bb_c1_dead_candidate_list :
    specResolvePrompt c1Page = some promptElem
    ∧ (triggerOnPage false c1Page).ok = false
    ∧ (triggerOnPage false c1Page).action = SubmitAction.noSubmit := by
  refine ⟨rfl, rfl, rfl⟩

/-- C2: the claim says an element whose inspected placeholder matches the
decoy pattern containing branch is never selected.  The code applies no decoy
filter: on a page whose first match of the hardcoded prompt locator is a
visible element with placeholder mentioning branch, `triggerOnPage` focuses,
types into and submits exactly that element and reports success. -/
theorem bb_c2_decoy_selected :
    isDecoy decoyElem = true
    ∧ triggerOnPage false c2Page = ⟨true, SubmitAction.pressEnter, some decoyElem⟩ := by
  refine ⟨rfl, rfl⟩

/-- C4 counterexample: on a page with a visible, enabled send button the
injector clicks the button; it does not submit via key press first as the
claim states. -/
theorem bb_c4_counterexample :
    (triggerOnPage false c4Page).action = SubmitAction.clickSend
    ∧ SubmitAction.clickSend ≠ SubmitAction.pressEnter := by
  exact ⟨rfl, by decide⟩

/-- C4 amended: for a tab whose prompt input is visible and whose focus/type
step raises no exception, the injector clicks the send button when it is
visible and enabled, and otherwise presses Enter on the prompt element; the
element acted on is always the hardcoded prompt match. -/
theorem bb_c4_amended (hasOverride : Bool) (pg : Page)
    (hv : locatorVisible pg.proseMirror = true) (ht : pg.focusTypeThrows = false) :
    (triggerOnPage hasOverride pg).action =
      (if sendVisibleB pg && !sendDisabledB pg then SubmitAction.clickSend
       else SubmitAction.pressEnter)
    ∧ (triggerOnPage hasOverride pg).target = pg.proseMirror := by
  cases hsv : sendVisibleB pg <;> cases hsd : sendDisabledB pg <;>
    simp [triggerOnPage, hv, ht, hsv, hsd]

/-- C4 amended witness: with a visible but disabled send button the injector
presses Enter. -/
theorem bb_c4_amended_witness :
    (triggerOnPage false c4DisabledPage).action = SubmitAction.pressEnter := by
  have h := (bb_c4_amended false c4DisabledPage rfl rfl).1
  rw [h]
  rfl

/-- C5 counterexample: requested tab count 0 does not clamp to 1; the JS
expression treats 0 as falsy and falls back to the default 5. -/
theorem bb_c5_counterexample : clampTabs (some 0) = 5 ∧ (5 : Int) ≠ 1 := by
  exact ⟨rfl, by decide⟩

/-- C5 amended: input 0 (like an absent or non-numeric input) falls back to
the default 5; every other input is clamped into [1, 55], so 1000 gives 55,
5 is unchanged, and the result always lies in [1, 55]. -/
theorem bb_c5_amended :
    clampTabs (some 0) = 5
    ∧ clampTabs none = 5
    ∧ clampTabs (some 1000) = 55
    ∧ clampTabs (some 5) = 5
    ∧ (∀ n : Int, n ≠ 0 → clampTabs (some n) = max 1 (min n 55))
    ∧ (∀ o : Option Int, 1 ≤ clampTabs o ∧ clampTabs o ≤ 55) := by
  refine ⟨rfl, rfl, rfl, rfl, ?_, ?_⟩
  · intro n hn
    simp [clampTabs, hn]
  · intro o
    refine ⟨le_max_left _ _, max_le (by norm_num) (min_le_right _ _)⟩

/-- C5 amended witness: a negative request clamps to 1. -/
theorem bb_c5_amended_witness : clampTabs (some (-3)) = 1 := by
  have h := bb_c5_amended.2.2.2.2.1 (-3) (by decide)
  rw [h]
  decide

/-- C3 counterexample: in an otherwise healthy single-tab run whose page never
satisfies any readiness predicate, the primary readiness poll times out and the
run aborts with exit code 1 — the timeout is fatal, not a logged warning. -/
theorem bb_c3_counterexample :
    primaryPoll (fun _ => deadDom) = none
    ∧ run envNeverReady = RunOutcome.fatal 1 := by
  exact ⟨rfl, rfl⟩

/-- C3 amended: the readiness detector reports ready at the first poll tick at
which any of the N predicates holds; the secondary interface wait is caught, so
the phase proceeds whether or not it times out; but the primary poll over
`READY_CHECKS` is unguarded, so when no predicate becomes true within its
window the phase raises the timeout error, and a run whose setup is otherwise
healthy aborts with exit code 1. -/
theorem bb_c3_amended :
    (∀ (trace : Nat → Dom) (k : Nat), primaryPoll trace = some k →
        readyPred (trace k) = true ∧ ∀ j, j < k → readyPred (trace j) = false)
    ∧ (∀ (trace trace2 : Nat → Dom) (k : Nat), primaryPoll trace = some k →
        readinessPhase trace trace2 = Except.ok (interfacePoll trace2).isSome)
    ∧ (∀ (trace trace2 : Nat → Dom), primaryPoll trace = none →
        readinessPhase trace trace2 = Except.error readinessTimeoutMsg
        ∧ ∀ k, k < PRIMARY_POLLS → readyPred (trace k) = false)
    ∧ (∀ env : Env, (∃ i, i < envTabs env ∧ primaryPoll (env.tab i).trace = none) →
        env.dashNavOk = true →
        (handleAuthentication env.headless env.dashTrace).success = true →
        navAllOk env = true →
        run env = RunOutcome.fatal 1) := by
  refine ⟨?_, ?_, ?_, ?_⟩
  · intro trace k h
    obtain ⟨hp, _, hmin⟩ := pollFirst_some _ _ _ _ h
    exact ⟨hp, fun j hj => hmin j (Nat.zero_le j) hj⟩
  · intro trace trace2 k h
    unfold readinessPhase
    rw [h]
  · intro trace trace2 h
    constructor
    · unfold readinessPhase
      rw [h]
    · intro k hk
      exact pollFirst_none _ _ _ h k (Nat.zero_le k) (by omega)
  · intro env hex hd ha hn
    obtain ⟨i, hi, hnone⟩ := hex
    have hr : readyAllOk env = false := by
      cases hr : readyAllOk env with
      | false => rfl
      | true =>
        have hall := List.all_eq_true.mp hr i (List.mem_range.mpr hi)
        rw [hnone] at hall
        simp at hall
    simp [run, hd, ha, hn, hr]

/-- C3 amended witness: at the never-ready trace the readiness phase raises
the timeout error. -/
theorem bb_c3_amended_witness :
    readinessPhase (fun _ => deadDom) (fun _ => deadDom)
      = Except.error readinessTimeoutMsg := by
  exact (bb_c3_amended.2.2.1 (fun _ => deadDom) (fun _ => deadDom) rfl).1

/-- C6: exit-code policy.  A failed dashboard navigation, a failed
authentication (in particular an explicit login requirement in headless mode),
or any single tab navigation failure aborts the run with exit code 1; when the
setup phases all succeed the run completes with exit code 0 whatever the
per-tab prompt outcomes are. -/
theorem bb_c6_exit_codes :
    (∀ env : Env, env.dashNavOk = false → run env = RunOutcome.fatal 1)
    ∧ (∀ env : Env, env.dashNavOk = true →
        (handleAuthentication env.headless env.dashTrace).success = false →
        run env = RunOutcome.fatal 1)
    ∧ (∀ env : Env, env.headless = true → env.dashNavOk = true →
        (env.dashTrace 0).checkThrows = false →
        (env.dashTrace 0).loginButtonVisible = true →
        run env = RunOutcome.fatal 1)
    ∧ (∀ (env : Env) (i : Nat), env.dashNavOk = true →
        (handleAuthentication env.headless env.dashTrace).success = true →
        i < envTabs env → (env.tab i).navOk = false →
        run env = RunOutcome.fatal 1)
    ∧ (∀ env : Env, env.dashNavOk = true →
        (handleAuthentication env.headless env.dashTrace).success = true →
        navAllOk env = true → readyAllOk env = true →
        exitCode (run env) = 0) := by
  refine ⟨?_, ?_, ?_, ?_, ?_⟩
  · intro env h
    simp [run, h]
  · intro env hd ha
    simp [run, hd, ha]
  · intro env hh hd hct hlb
    have hst : checkAuthentication true (env.dashTrace 0)
        = ⟨false, "login_required"⟩ := by
      simp [checkAuthentication, hct, hlb]
    have hha : (handleAuthentication env.headless env.dashTrace).success = false := by
      simp [handleAuthentication, hh, hst]
    simp [run, hd, hha]
  · intro env i hd ha hi hnav
    have hn : navAllOk env = false := by
      rw [navAllOk_eq]
      cases h : (List.range (envTabs env)).all (fun j => (env.tab j).navOk) with
      | false => rfl
      | true =>
        have hall := List.all_eq_true.mp h i (List.mem_range.mpr hi)
        rw [hnav] at hall
        simp at hall
    simp [run, hd, ha, hn]
  · intro env hd ha hn hr
    simp [run, hd, ha, hn, hr, exitCode]

/-- C6 witness: the three-tab scenario completes with exit code 0 although two
of its tabs fail. -/
theorem bb_c6_witness : exitCode (run env3) = 0 := by
  exact bb_c6_exit_codes.2.2.2.2 env3 rfl rfl rfl rfl

/-- C7: per-tab recoverable failures.  When the prompt element is not visible
(or absent) and no usable override exists, and likewise when the focus/type
step raises, `triggerOnPage` returns false for that tab; and in any run whose
setup succeeds every tab is processed — the result list is exactly the per-tab
`triggerOnPage` outcome for each tab index, so one failing tab never stops the
others. -/
theorem bb_c7_recoverable :
    (∀ (hasOverride : Bool) (pg : Page), locatorVisible pg.proseMirror = false →
        overrideUsable hasOverride pg = false →
        (triggerOnPage hasOverride pg).ok = false)
    ∧ (∀ (hasOverride : Bool) (pg : Page), pg.focusTypeThrows = true →
        overrideUsable hasOverride pg = false →
        (triggerOnPage hasOverride pg).ok = false)
    ∧ (∀ env : Env, env.dashNavOk = true →
        (handleAuthentication env.headless env.dashTrace).success = true →
        navAllOk env = true → readyAllOk env = true →
        run env = RunOutcome.completed
          ((List.range (envTabs env)).map
            (fun i => (triggerOnPage env.hasOverride (env.tab i).page).ok))
          (((List.range (envTabs env)).map
            (fun i => (triggerOnPage env.hasOverride (env.tab i).page).ok)).countP (fun b => b))
          (roundPct (((List.range (envTabs env)).map
            (fun i => (triggerOnPage env.hasOverride (env.tab i).page).ok)).countP (fun b => b))
            (envTabs env))) := by
  refine ⟨?_, ?_, ?_⟩
  · intro hasOverride pg hv hov
    simp [triggerOnPage, hv, overrideFallback, hov]
  · intro hasOverride pg ht hov
    cases hv : locatorVisible pg.proseMirror <;>
      simp [triggerOnPage, hv, ht, overrideFallback, hov]
  · intro env hd ha hn hr
    simp [run, hd, ha, hn, hr, promptResults_eq]

/-- C7 witness: in the two-tab environment the failing first tab is marked
false and the second tab still succeeds. -/
theorem bb_c7_witness : run envMix = RunOutcome.completed [false, true] 1 50 := by
  have h := bb_c7_recoverable.2.2 envMix rfl rfl rfl rfl
  rw [h]
  rfl

/-- C8: batch partitioning.  With 23 tabs the provisioning batches have sizes
[10, 10, 3]; batching always concatenates back to the original index list, each
batch respects the batch size, every tab index occurs in exactly one batch, and
every prompt batch is bounded by 15. -/
theorem bb_c8_batching :
    ((chunkList (BATCH_SIZE 23) (List.range 23)).map List.length = [10, 10, 3])
    ∧ (∀ (b : Nat) (l : List Nat), (chunkList b l).flatten = l)
    ∧ (∀ (b : Nat) (l : List Nat), 1 ≤ b → ∀ c ∈ chunkList b l, c.length ≤ b)
    ∧ (∀ t b i : Nat, i < t →
        ((chunkList b (List.range t)).map (fun c => c.count i)).sum = 1)
    ∧ (∀ (t : Nat) (c : List Nat), c ∈ chunkList (PROMPT_BATCH_SIZE t) (List.range t) →
        c.length ≤ 15) := by
  refine ⟨by decide, ?_, ?_, ?_, ?_⟩
  · intro b l
    exact chunkList_flatten b l
  · intro b l hb
    exact chunkList_length_le b hb l
  · intro t b i hi
    exact chunkList_count_range t b i hi
  · intro t c hc
    cases t with
    | zero => simp [chunkList, chunkAux] at hc
    | succ n =>
      have hb : 1 ≤ PROMPT_BATCH_SIZE (n + 1) := by
        simp [PROMPT_BATCH_SIZE]
      exact le_trans (chunkList_length_le _ hb _ c hc) (min_le_left _ _)

/-- C8 witness: tab index 7 occurs in exactly one of the provisioning batches
of a 23-tab run. -/
theorem bb_c8_witness :
    ((chunkList 10 (List.range 23)).map (fun c => c.count 7)).sum = 1 := by
  exact bb_c8_batching.2.2.2.1 23 10 7 (by decide)

/-- C9: outcome aggregation.  Every run with a successful setup produces one
boolean per tab, counts the true entries and rounds the percentage; in the
three-tab scenario (one resolvable prompt, one decoy-only tab, one empty tab)
it reports 1 success out of 3, i.e. 33 percent. -/
theorem bb_c9_aggregator :
    (∀ env : Env, env.dashNavOk = true →
        (handleAuthentication env.headless env.dashTrace).success = true →
        navAllOk env = true → readyAllOk env = true →
        ∃ rs : List Bool,
          run env = RunOutcome.completed rs (rs.countP (fun b => b))
            (roundPct (rs.countP (fun b => b)) (envTabs env))
          ∧ rs.length = envTabs env)
    ∧ roundPct 1 3 = 33
    ∧ run env3 = RunOutcome.completed [true, false, false] 1 33 := by
  refine ⟨?_, rfl, rfl⟩
  intro env hd ha hn hr
  refine ⟨promptResults env.hasOverride (envTabs env) (fun i => (env.tab i).page), ?_, ?_⟩
  · simp [run, hd, ha, hn, hr]
  · rw [promptResults_eq, List.length_map, List.length_range]

/-- C9 witness: the two-tab environment yields one boolean per tab. -/
theorem bb_c9_witness :
    ∃ rs : List Bool,
      run envMix = RunOutcome.completed rs (rs.countP (fun b => b))
        (roundPct (rs.countP (fun b => b)) (envTabs envMix))
      ∧ rs.length = envTabs envMix := by
  exact bb_c9_aggregator.1 envMix rfl rfl rfl rfl

/-- C10: whenever the prompt input is visible and focusing/typing raises no
exception, the tab is counted successful in all three submission branches:
enabled send button (clicked), disabled send button (Enter pressed), and no
send button (Enter pressed).  Success never depends on the send button nor on
any verification that the submission took effect. -/
theorem bb_c10_success_branches (hasOverride : Bool) (pg : Page)
    (hv : locatorVisible pg.proseMirror = true) (ht : pg.focusTypeThrows = false) :
    (triggerOnPage hasOverride pg).ok = true
    ∧ (sendVisibleB pg = true → sendDisabledB pg = false →
        (triggerOnPage hasOverride pg).action = SubmitAction.clickSend)
    ∧ (sendVisibleB pg = true → sendDisabledB pg = true →
        (triggerOnPage hasOverride pg).action = SubmitAction.pressEnter)
    ∧ (sendVisibleB pg = false →
        (triggerOnPage hasOverride pg).action = SubmitAction.pressEnter) := by
  refine ⟨?_, ?_, ?_, ?_⟩
  · cases hsv : sendVisibleB pg <;> cases hsd : sendDisabledB pg <;>
      simp [triggerOnPage, hv, ht, hsv, hsd]
  · intro hsv hsd
    simp [triggerOnPage, hv, ht, hsv, hsd]
  · intro hsv hsd
    simp [triggerOnPage, hv, ht, hsv, hsd]
  · intro hsv
    simp [triggerOnPage, hv, ht, hsv]

/-- C10 witness: the enabled-button page is counted successful. -/
theorem bb_c10_witness : (triggerOnPage false c4Page).ok = true := by
  exact (bb_c10_success_branches false c4Page rfl rfl).1

end BurstBuilder
